import Mathlib

/-!
Verification of the S-RIM KOSPI snapshot valuation pipeline.

Shallow embedding of the core components:
* `compute_srim` (src/app/models.py) — the residual-income valuation engine;
* `classify_flags` (src/app/api/routes_srim.py) — the quality-flag classifier;
* `sanitize_for_json` (src/app/utils/json_sanitize.py) — the numeric sanitizer;
* the DART fundamentals fallback search (src/app/etl/sources_dart.py,
  `fetch_latest_annual_fundamentals`);
* `upsert_srim_result` (src/app/etl/stage3_srim.py) — the result store.

Python floats are modelled as exact rationals (ℚ); optional/None-able values
as `Option`; Python dicts used as flag sets as association lists preserving
insertion order (keys are unique on every path the code takes).
-/

namespace SRim

/-- A value stored in a Python flags dict: the code stores booleans, floats,
strings, `None`, and (for `LAST_TRY_*` debug entries) a small dict
`{"year": y, "reprt_code": rc}` modelled as `yearReprt`. -/
inductive FlagVal where
  | bool (b : Bool)
  | num (q : ℚ)
  | str (s : String)
  | none
  | yearReprt (y : ℤ) (rc : String)
deriving DecidableEq, Repr

/-- A Python dict of flags, as an insertion-ordered association list. -/
abbrev Flags := List (String × FlagVal)

/-- The keys of a flags dict (membership test mirrors Python `k in flags`). -/
def flagKeys (f : Flags) : List String := f.map Prod.fst

/-- Python dict assignment `d[k] = v`: overwrite in place if the key exists,
else append at the end (Python dicts preserve insertion order). -/
def dictSet (f : Flags) (k : String) (v : FlagVal) : Flags :=
  match f with
  | [] => [(k, v)]
  | (k', v') :: rest =>
      if k' = k then (k', v) :: rest else (k', v') :: dictSet rest k v

/-- Python `d.get(k)` on a flags dict. -/
def dictGet (f : Flags) (k : String) : Option FlagVal :=
  match f with
  | [] => Option.none
  | (k', v) :: rest => if k' = k then some v else dictGet rest k

/-- `Option String` to the flag value stored for `"name"` (a string or `None`). -/
def optStr : Option String → FlagVal
  | some s => .str s
  | Option.none => .none

/-- Input record of `compute_srim` (dataclass `SrimInput` in
src/app/models.py).  The dataclass annotates the fields as `float`, but the
function guards every field against `None`, so each numeric field is an
`Option ℚ`. -/
structure SrimInput where
  ticker : String
  equity_parent : Option ℚ
  net_income_parent : Option ℚ
  shares_out : Option ℚ
  market_price : Option ℚ
  discount_rate : Option ℚ
deriving DecidableEq, Repr

/-- Output record of `compute_srim` (dataclass `SrimOutput`). -/
structure SrimOutput where
  srim_price : Option ℚ
  bps : Option ℚ
  roe : Option ℚ
  spread : Option ℚ
  gap_pct : Option ℚ
  flags : Flags
deriving DecidableEq, Repr

/-- The clamping applied to the residual-income total: floored at 0 when
clamping is enabled and the residual is negative, untouched otherwise. -/
def clampR (c : Bool) (q : ℚ) : ℚ := if c = true ∧ q < 0 then 0 else q

/-- `compute_srim` from src/app/models.py, transcribed branch for branch.
Checks run in the source's order: missing input, equity ≤ 0, shares ≤ 0,
rate ≤ 0, then the main computation with the flags inserted in the source's
insertion order. -/
def compute_srim (x : SrimInput) (persistence : ℚ) (clamp_negative_residual : Bool) :
    SrimOutput :=
  match x.equity_parent, x.net_income_parent, x.shares_out, x.discount_rate with
  | some e, some ni, some sh, some r =>
      if e ≤ 0 then
        ⟨Option.none, Option.none, Option.none, Option.none, Option.none,
          [("FLAG_EQUITY_NON_POSITIVE", .bool true)]⟩
      else if sh ≤ 0 then
        ⟨Option.none, Option.none, Option.none, Option.none, Option.none,
          [("FLAG_SHARES_NON_POSITIVE", .bool true)]⟩
      else if r ≤ 0 then
        ⟨Option.none, Option.none, Option.none, Option.none, Option.none,
          [("FLAG_DISCOUNT_RATE_NON_POSITIVE", .bool true)]⟩
      else
        let bps := e / sh
        let roe := ni / e
        let spread := roe - r
        let residual0 := spread * e
        let flags0 : Flags := [("residual_income_total", .num residual0)]
        let doClamp := clamp_negative_residual = true ∧ residual0 < 0
        let flags1 : Flags :=
          if doClamp then flags0 ++ [("FLAG_NEGATIVE_RESIDUAL_CLAMPED", .bool true)]
          else flags0
        let residual := if doClamp then (0 : ℚ) else residual0
        let pv := residual / r * persistence
        let flags2 := flags1 ++ [("pv_residual_total", .num pv)]
        let intrinsic := e + pv
        let price := intrinsic / sh
        let gapFlags : Option ℚ × Flags :=
          match x.market_price with
          | some mp =>
              if 0 < mp then (some ((price / mp - 1) * 100), flags2)
              else (Option.none, flags2 ++ [("FLAG_BAD_MARKET_PRICE", .bool true)])
          | Option.none =>
              (Option.none, flags2 ++ [("FLAG_BAD_MARKET_PRICE", .bool true)])
        let gap := gapFlags.1
        let flags3 := gapFlags.2
        let flags4 :=
          if roe < 0 then flags3 ++ [("FLAG_ROE_NEGATIVE", .bool true)] else flags3
        let flags5 :=
          if spread < 0 then flags4 ++ [("FLAG_ROE_BELOW_R", .bool true)] else flags4
        ⟨some price, some bps, some roe, some spread, gap, flags5⟩
  | _, _, _, _ =>
      ⟨Option.none, Option.none, Option.none, Option.none, Option.none,
        [("FLAG_MISSING_INPUT", .bool true)]⟩

/-! ### Quality-flag classifier (src/app/api/routes_srim.py) -/

/-- `EXCLUDE_FLAG_KEYS` from src/app/api/routes_srim.py (a Python set;
modelled as the list of its literal elements — only membership is used). -/
def EXCLUDE_FLAG_KEYS : List String :=
  ["FLAG_MISSING_SHARES_OUT", "FLAG_MISSING_EQUITY", "FLAG_MISSING_NET_INCOME"]

/-- `WARN_FLAG_KEYS` from src/app/api/routes_srim.py. -/
def WARN_FLAG_KEYS : List String :=
  ["FLAG_ROE_BELOW_R", "FLAG_ROE_NEGATIVE", "FLAG_NEGATIVE_RESIDUAL_CLAMPED"]

/-- The runtime argument of `classify_flags`: the function is annotated to
take a dict but guards with `isinstance(flags, dict)`, so the argument is
either a flags dict or some non-mapping value. -/
inductive FlagsArg where
  | notDict
  | dict (f : Flags)

/-- `classify_flags` from src/app/api/routes_srim.py: EXCLUDE checked first,
then WARN, else OK; reasons are the matching keys.  Key membership mirrors
Python `k in flags` and ignores the stored values. -/
def classify_flags : FlagsArg → String × List String
  | .notDict => ("WARN", ["FLAG_INVALID_FLAGS_FORMAT"])
  | .dict f =>
      let exReasons := EXCLUDE_FLAG_KEYS.filter (fun k => decide (k ∈ flagKeys f))
      if exReasons ≠ [] then ("EXCLUDE", exReasons)
      else
        let wnReasons := WARN_FLAG_KEYS.filter (fun k => decide (k ∈ flagKeys f))
        if wnReasons ≠ [] then ("WARN", wnReasons)
        else ("OK", [])

/-! ### Numeric sanitizer (src/app/utils/json_sanitize.py) -/

/-- A Python float: either a finite value (exact rational) or one of the
non-finite values NaN, +Inf, −Inf.  The claims here only distinguish
finite from non-finite, so no floating-point arithmetic is modelled. -/
inductive PyFloat where
  | finite (q : ℚ)
  | nan
  | inf
  | ninf
deriving DecidableEq, Repr

/-- `_is_bad_number` from src/app/utils/json_sanitize.py restricted to
floats (on every non-float Python value it returns False, which the
per-constructor cases of `sanitize_for_json` below reproduce). -/
def isBadNumber : PyFloat → Bool
  | .finite _ => false
  | .nan => true
  | .inf => true
  | .ninf => true

mutual
/-- A JSON-like Python value: scalars, nested dicts and nested lists. -/
inductive JVal where
  | jnull
  | jbool (b : Bool)
  | jint (n : ℤ)
  | jfloat (f : PyFloat)
  | jstr (s : String)
  | jdict (entries : JEntries)
  | jarr (items : JItems)
/-- The ordered entries of a nested dict. -/
inductive JEntries where
  | nil
  | cons (k : String) (v : JVal) (rest : JEntries)
/-- The ordered items of a nested list. -/
inductive JItems where
  | nil
  | cons (v : JVal) (rest : JItems)
end

mutual
/-- `sanitize_for_json` from src/app/utils/json_sanitize.py: a non-finite
float becomes null, dicts and lists are rebuilt recursively, everything
else is returned unchanged. -/
def sanitize_for_json : JVal → JVal
  | .jfloat f => if isBadNumber f then .jnull else .jfloat f
  | .jdict es => .jdict (sanitizeEntries es)
  | .jarr xs => .jarr (sanitizeItems xs)
  | .jnull => .jnull
  | .jbool b => .jbool b
  | .jint n => .jint n
  | .jstr s => .jstr s
/-- The dict-comprehension branch of `sanitize_for_json`. -/
def sanitizeEntries : JEntries → JEntries
  | .nil => .nil
  | .cons k v rest => .cons k (sanitize_for_json v) (sanitizeEntries rest)
/-- The list-comprehension branch of `sanitize_for_json`. -/
def sanitizeItems : JItems → JItems
  | .nil => .nil
  | .cons v rest => .cons (sanitize_for_json v) (sanitizeItems rest)
end

mutual
/-- A value free of non-finite floats (the property `sanitize_for_json`
establishes). -/
def goodV : JVal → Bool
  | .jfloat f => !isBadNumber f
  | .jdict es => goodE es
  | .jarr xs => goodI xs
  | .jnull => true
  | .jbool _ => true
  | .jint _ => true
  | .jstr _ => true
/-- All entry values of a dict are free of non-finite floats. -/
def goodE : JEntries → Bool
  | .nil => true
  | .cons _ v rest => goodV v && goodE rest
/-- All items of a list are free of non-finite floats. -/
def goodI : JItems → Bool
  | .nil => true
  | .cons v rest => goodV v && goodI rest
end

/-- The keys of a nested dict, in order. -/
def entryKeys : JEntries → List String
  | .nil => []
  | .cons k _ rest => k :: entryKeys rest

/-- The number of items of a nested list. -/
def itemsLength : JItems → ℕ
  | .nil => 0
  | .cons _ rest => itemsLength rest + 1

mutual
/-- After sanitization no non-finite float remains in a value. -/
def sanitizeV_good : ∀ v : JVal, goodV (sanitize_for_json v) = true
  | .jnull => rfl
  | .jbool _ => rfl
  | .jint _ => rfl
  | .jstr _ => rfl
  | .jfloat f => by cases f <;> rfl
  | .jdict es => sanitizeE_good es
  | .jarr xs => sanitizeI_good xs
/-- After sanitization no non-finite float remains in dict entries. -/
def sanitizeE_good : ∀ es : JEntries, goodE (sanitizeEntries es) = true
  | .nil => rfl
  | .cons _ v rest => by
      simp [sanitizeEntries, goodE, sanitizeV_good v, sanitizeE_good rest]
/-- After sanitization no non-finite float remains in list items. -/
def sanitizeI_good : ∀ xs : JItems, goodI (sanitizeItems xs) = true
  | .nil => rfl
  | .cons v rest => by
      simp [sanitizeItems, goodI, sanitizeV_good v, sanitizeI_good rest]
end

mutual
/-- Sanitization leaves a value with no non-finite floats unchanged. -/
def sanitizeV_id : ∀ v : JVal, goodV v = true → sanitize_for_json v = v
  | .jnull, _ => rfl
  | .jbool _, _ => rfl
  | .jint _, _ => rfl
  | .jstr _, _ => rfl
  | .jfloat f, h => by
      cases f with
      | finite q => rfl
      | nan => simp [goodV, isBadNumber] at h
      | inf => simp [goodV, isBadNumber] at h
      | ninf => simp [goodV, isBadNumber] at h
  | .jdict es, h => by
      simp only [sanitize_for_json]
      rw [sanitizeE_id es h]
  | .jarr xs, h => by
      simp only [sanitize_for_json]
      rw [sanitizeI_id xs h]
/-- Sanitization leaves dict entries with no non-finite floats unchanged. -/
def sanitizeE_id : ∀ es : JEntries, goodE es = true → sanitizeEntries es = es
  | .nil, _ => rfl
  | .cons _ v rest, h => by
      have h' : goodV v = true ∧ goodE rest = true := by
        simpa [goodE, Bool.and_eq_true] using h
      simp only [sanitizeEntries]
      rw [sanitizeV_id v h'.1, sanitizeE_id rest h'.2]
/-- Sanitization leaves list items with no non-finite floats unchanged. -/
def sanitizeI_id : ∀ xs : JItems, goodI xs = true → sanitizeItems xs = xs
  | .nil, _ => rfl
  | .cons v rest, h => by
      have h' : goodV v = true ∧ goodI rest = true := by
        simpa [goodI, Bool.and_eq_true] using h
      simp only [sanitizeItems]
      rw [sanitizeV_id v h'.1, sanitizeI_id rest h'.2]
end

/-- Sanitization preserves the keys of a dict, in order. -/
def sanitizeE_keys : ∀ es : JEntries, entryKeys (sanitizeEntries es) = entryKeys es
  | .nil => rfl
  | .cons k v rest => by simp [sanitizeEntries, entryKeys, sanitizeE_keys rest]

/-- Sanitization preserves the number of items of a list. -/
def sanitizeI_len : ∀ xs : JItems, itemsLength (sanitizeItems xs) = itemsLength xs
  | .nil => rfl
  | .cons v rest => by simp [sanitizeItems, itemsLength, sanitizeI_len rest]

/-! ### DART fundamentals fallback search (src/app/etl/sources_dart.py) -/

/-- The consolidation basis of a DART financial-statement request
(`fs_div`): consolidated (`CFS`) or standalone (`OFS`). -/
inductive Basis where
  | CFS
  | OFS
deriving DecidableEq, Repr

/-- One attempted (report type, fiscal year, basis) combination. -/
structure Attempt where
  reprt_code : String
  year : ℤ
  basis : Basis
deriving DecidableEq, Repr

/-- Result of one external fetch (`dart_fnltt_all`): either the list of
returned rows — `(account_nm, thstrm_amount)` pairs, possibly empty — or a
raised error (status ≠ 000, transport failure …), which the caller catches. -/
inductive FetchRes where
  | ok (rows : List (String × Option ℚ))
  | err (msg : String)
deriving DecidableEq, Repr

/-- `reprt_codes` from `fetch_latest_annual_fundamentals`: annual report
first, then 3Q, half-year, 1Q. -/
def reprt_codes : List String := ["11011", "11014", "11012", "11013"]

/-- `candidate_years` from `fetch_latest_annual_fundamentals`:
`[current_year - 2, current_year - 3, current_year - 1]`. -/
def candidate_years (current_year : ℤ) : List ℤ :=
  [current_year - 2, current_year - 3, current_year - 1]

/-- Running state of the fallback search: the attempts made so far (the
trace of external calls, in order) and the accumulated debug flags. -/
structure SearchState where
  attempts : List Attempt
  flags : Flags
deriving Repr

/-- The inner `for y in candidate_years` loop of
`fetch_latest_annual_fundamentals` for one report code and one basis:
each year is attempted in order; an error is recorded under the given
`LAST_ERR_* / LAST_TRY_*` keys (overwriting the previous one); the loop
stops at the first non-empty row set. -/
def tryYears (fetch : Attempt → FetchRes) (rc : String) (basis : Basis)
    (errKey tryKey : String) (years : List ℤ) (st : SearchState) :
    SearchState × Option (ℤ × List (String × Option ℚ)) :=
  match years with
  | [] => (st, Option.none)
  | y :: rest =>
      let a : Attempt := ⟨rc, y, basis⟩
      let st' : SearchState := { st with attempts := st.attempts ++ [a] }
      match fetch a with
      | .ok rows =>
          if rows ≠ [] then (st', some (y, rows))
          else tryYears fetch rc basis errKey tryKey rest st'
      | .err m =>
          let fl := dictSet (dictSet st'.flags errKey (.str m)) tryKey (.yearReprt y rc)
          tryYears fetch rc basis errKey tryKey rest { st' with flags := fl }

/-- The outer `for rc in reprt_codes` loop of
`fetch_latest_annual_fundamentals`: for each report code, all candidate
years are tried on the consolidated basis, and only if that whole pass
found nothing are all candidate years tried on the standalone basis; the
first non-empty payload ends the search and records
`is_consolidated` / `report_code_used`. -/
def searchFs (fetch : Attempt → FetchRes) (years : List ℤ) (st : SearchState) :
    List String → SearchState × Option (String × ℤ × Basis × List (String × Option ℚ))
  | [] => (st, Option.none)
  | rc :: rest =>
      match tryYears fetch rc .CFS "LAST_ERR_CFS" "LAST_TRY_CFS" years st with
      | (st1, some (y, rows)) =>
          let fl := dictSet (dictSet st1.flags "is_consolidated" (.bool true))
            "report_code_used" (.str rc)
          ({ st1 with flags := fl }, some (rc, y, .CFS, rows))
      | (st1, Option.none) =>
          match tryYears fetch rc .OFS "LAST_ERR_OFS" "LAST_TRY_OFS" years st1 with
          | (st2, some (y, rows)) =>
              let fl := dictSet (dictSet st2.flags "is_consolidated" (.bool false))
                "report_code_used" (.str rc)
              ({ st2 with flags := fl }, some (rc, y, .OFS, rows))
          | (st2, Option.none) => searchFs fetch years st2 rest

/-- Whether one attempt yields a non-empty payload (the search's success
condition: no exception and `len(fs_df) > 0`). -/
def succeedsAt (fetch : Attempt → FetchRes) (a : Attempt) : Bool :=
  match fetch a with
  | .ok rows => !rows.isEmpty
  | .err _ => false

/-- Generic first-success scan over an ordered candidate list: returns the
attempts actually made (every failing candidate up to and including the
first succeeding one) and the first succeeding candidate, if any. -/
def scanFirst (fetch : Attempt → FetchRes) : List Attempt → List Attempt × Option Attempt
  | [] => ([], Option.none)
  | a :: rest =>
      if succeedsAt fetch a then ([a], some a)
      else
        let (ats, r) := scanFirst fetch rest
        (a :: ats, r)

/-- The candidate order the code actually uses: for each report code, all
candidate years on the consolidated basis, then all candidate years on the
standalone basis. -/
def code_search_order (rcs : List String) (years : List ℤ) : List Attempt :=
  rcs.flatMap fun rc =>
    years.map (fun y => ⟨rc, y, .CFS⟩) ++ years.map (fun y => ⟨rc, y, .OFS⟩)

/-- Modelled from the spec: the candidate order §4.1 describes — "for each
(report type, year) pair first attempt consolidated-basis sourcing, and
only if that yields no rows attempt standalone-basis sourcing for the same
pair", i.e. the two bases interleaved per (report type, year) pair. -/
def spec_pair_order (rcs : List String) (years : List ℤ) : List Attempt :=
  rcs.flatMap fun rc =>
    years.flatMap fun y => [⟨rc, y, .CFS⟩, ⟨rc, y, .OFS⟩]

/-- The (report type, year, basis) combination a search result reports. -/
def foundAttempt : Option (String × ℤ × Basis × List (String × Option ℚ)) → Option Attempt
  | some (rc, y, b, _) => some ⟨rc, y, b⟩
  | Option.none => Option.none

/-- A concrete fetch oracle: data exists only for the annual report at
year 2023 on the consolidated basis and at year 2024 on the standalone
basis; everything else returns an empty payload. -/
def c4Fetch : Attempt → FetchRes := fun a =>
  if a = ⟨"11011", 2023, .CFS⟩ then .ok [("acct", some 1)]
  else if a = ⟨"11011", 2024, .OFS⟩ then .ok [("acct", some 1)]
  else .ok []

/-- `str.zfill(6)`: left-pad with zeros to width 6 (tickers are unsigned,
so the sign handling of `zfill` never applies). -/
def zfill6 (s : String) : String :=
  if s.length ≥ 6 then s else String.mk (List.replicate (6 - s.length) '0') ++ s

/-- The well-formedness check on a normalized ticker:
`len(tk) == 6 and tk.isdigit()`. -/
def isValidTicker (s : String) : Bool :=
  s.length == 6 && s.toList.all Char.isDigit

/-- `FundamentalRow` from src/app/etl/sources_dart.py.  `report_code` is
always set to a concrete string (the used code or the `"11011"` default). -/
structure FundamentalRow where
  ticker : String
  fs_year : Option ℤ
  report_code : String
  is_consolidated : Option Bool
  equity_parent : Option ℚ
  net_income_parent : Option ℚ
  data_quality : Flags
deriving Repr

/-- Read the `is_consolidated` flag back as the code's `flags.get(...)`
does (`None` when absent). -/
def getBoolFlag (f : Flags) (k : String) : Option Bool :=
  match dictGet f k with
  | some (.bool b) => some b
  | _ => Option.none

/-- Read the `report_code_used` flag with the `"11011"` default. -/
def getReportCode (f : Flags) : String :=
  match dictGet f "report_code_used" with
  | some (.str s) => s
  | _ => "11011"

/-- The per-ticker body of `fetch_latest_annual_fundamentals`.
`pick` abstracts `_pick_value_from_dart_df` (pandas substring matching of
account names against a priority list of labels); `corp_lookup` abstracts
`resolve_corp_code` over the corpCode table; `fetch` abstracts
`dart_fnltt_all` for a given corp code, with raised exceptions modelled as
`FetchRes.err` (the code catches them, so resolution is total). -/
def resolveTicker (pick : List (String × Option ℚ) → List String → Option ℚ)
    (corp_lookup : String → Option String)
    (fetch : String → Attempt → FetchRes)
    (current_year : ℤ) (name : Option String) (raw : String) : FundamentalRow :=
  let tk := zfill6 raw
  if ¬ isValidTicker tk then
    ⟨tk, Option.none, "11011", Option.none, Option.none, Option.none,
      [("FLAG_BAD_TICKER", .bool true), ("name", optStr name)]⟩
  else
    match corp_lookup tk with
    | Option.none =>
        ⟨tk, Option.none, "11011", Option.none, Option.none, Option.none,
          [("FLAG_NO_CORP_CODE", .bool true), ("name", optStr name)]⟩
    | some corp_code =>
        match searchFs (fetch corp_code) (candidate_years current_year) ⟨[], []⟩ reprt_codes with
        | (st, Option.none) =>
            ⟨tk, Option.none, "11011", getBoolFlag st.flags "is_consolidated",
              Option.none, Option.none,
              ("FLAG_NO_FS", .bool true) :: st.flags ++ [("name", optStr name)]⟩
        | (st, some (_, y, _, rows)) =>
            let eq0 := pick rows ["지배기업소유주지분", "지배주주지분"]
            let equityFl : Option ℚ × Flags :=
              match eq0 with
              | some v => (some v, st.flags)
              | Option.none =>
                  match pick rows ["자본총계"] with
                  | some v =>
                      (some v, dictSet st.flags "FLAG_EQUITY_SUB_TOTAL_EQUITY" (.bool true))
                  | Option.none => (Option.none, st.flags)
            let ni0 := pick rows ["지배기업소유주지분당기순이익", "지배주주순이익"]
            let niFl : Option ℚ × Flags :=
              match ni0 with
              | some v => (some v, equityFl.2)
              | Option.none =>
                  match pick rows ["당기순이익"] with
                  | some v =>
                      (some v, dictSet equityFl.2 "FLAG_NI_SUB_NET_INCOME" (.bool true))
                  | Option.none => (Option.none, equityFl.2)
            ⟨tk, some y, getReportCode niFl.2, getBoolFlag niFl.2 "is_consolidated",
              equityFl.1, niFl.1, niFl.2⟩

/-! ### Result store (src/app/etl/stage3_srim.py, `upsert_srim_result`) -/

/-- The computed columns of one `srim_result` row (the serialized flags
JSON is kept abstract as a string). -/
structure SRimVals where
  bps : Option ℚ
  roe : Option ℚ
  r : Option ℚ
  fair_price : Option ℚ
  gap_pct : Option ℚ
  flags : String
deriving DecidableEq, Repr

/-- One bound parameter set of the upsert statement: each row dict carries
its own `snapshot_id` and `ticker` keys (the SQL binds `:snapshot_id` from
the row, not from the function argument). -/
structure RowParams where
  snapshot_id : String
  ticker : String
  vals : SRimVals
deriving DecidableEq, Repr

/-- One stored `srim_result` row: the computed values plus `computed_at`
(`now()` at insert time, refreshed on every conflict-update). -/
structure StoredRow where
  vals : SRimVals
  computed_at : ℕ
deriving DecidableEq, Repr

/-- The `srim_result` table, keyed by the primary key
`(snapshot_id, ticker)`.  Postgres guarantees at most one row per key; the
theorems carry that as a `Nodup` hypothesis. -/
abbrev Table := List ((String × String) × StoredRow)

/-- The effect of one `insert … on conflict (snapshot_id, ticker) do update`
execution at time `t`: replace the row with the conflicting key in place,
or append a fresh row. -/
def upsertOne (tbl : Table) (key : String × String) (v : SRimVals) (t : ℕ) : Table :=
  match tbl with
  | [] => [(key, ⟨v, t⟩)]
  | (k, row) :: rest =>
      if k = key then (k, ⟨v, t⟩) :: rest
      else (k, row) :: upsertOne rest key v t

/-- Primary-key lookup in the table. -/
def tblGet (tbl : Table) (key : String × String) : Option StoredRow :=
  match tbl with
  | [] => Option.none
  | (k, row) :: rest => if k = key then some row else tblGet rest key

/-- `upsert_srim_result` from src/app/etl/stage3_srim.py: executes the
upsert statement once per row, in order, and returns the number of rows
executed.  `snapshot_id` is the (unused-by-the-SQL) function argument. -/
def upsert_srim_result (tbl : Table) (snapshot_id : String)
    (rows : List RowParams) (t : ℕ) : Table × ℕ :=
  rows.foldl
    (fun acc row => (upsertOne acc.1 (row.snapshot_id, row.ticker) row.vals t, acc.2 + 1))
    (tbl, 0)

end SRim

namespace SRim

/-- C1: with all inputs present, equity > 0, shares > 0, rate > 0, the engine
returns `bps = equity / shares`, `roe = net_income / equity`,
`spread = roe − rate`,
`fair_price = (equity + clamp(residual) / rate · persistence) / shares` with
`residual = (roe − rate) · equity`, and, when the market price is positive,
`gap_pct = (fair_price / market_price − 1) · 100`. -/
theorem compute_srim_formula_C1 (tk : String) (e ni sh : ℚ) (mp : Option ℚ)
    (r p : ℚ) (c : Bool) (he : 0 < e) (hs : 0 < sh) (hr : 0 < r) :
    (compute_srim ⟨tk, some e, some ni, some sh, mp, some r⟩ p c).bps
        = some (e / sh) ∧
    (compute_srim ⟨tk, some e, some ni, some sh, mp, some r⟩ p c).roe
        = some (ni / e) ∧
    (compute_srim ⟨tk, some e, some ni, some sh, mp, some r⟩ p c).spread
        = some (ni / e - r) ∧
    (compute_srim ⟨tk, some e, some ni, some sh, mp, some r⟩ p c).srim_price
        = some ((e + clampR c ((ni / e - r) * e) / r * p) / sh) ∧
    (∀ m : ℚ, mp = some m → 0 < m →
      (compute_srim ⟨tk, some e, some ni, some sh, mp, some r⟩ p c).gap_pct
        = some (((e + clampR c ((ni / e - r) * e) / r * p) / sh / m - 1) * 100)) := by
  simp only [compute_srim, clampR, if_neg (not_le.mpr he), if_neg (not_le.mpr hs),
    if_neg (not_le.mpr hr)]
  refine ⟨trivial, trivial, trivial, trivial, ?_⟩
  · intro m hm hmpos
    subst hm
    simp only [if_pos hmpos]

/-- C1 witness: the hand-computed example equity = 1000, net income = 150,
shares = 100, rate = 1/10, persistence = 1, market price = 12 gives
bps = 10, roe = 3/20, spread = 1/20, fair price = 15, gap = 25 %. -/
theorem compute_srim_formula_C1_witness :
    (compute_srim ⟨"X", some 1000, some 150, some 100, some 12, some (1/10)⟩ 1 true).bps
        = some 10 ∧
    (compute_srim ⟨"X", some 1000, some 150, some 100, some 12, some (1/10)⟩ 1 true).roe
        = some (3/20) ∧
    (compute_srim ⟨"X", some 1000, some 150, some 100, some 12, some (1/10)⟩ 1 true).spread
        = some (1/20) ∧
    (compute_srim ⟨"X", some 1000, some 150, some 100, some 12, some (1/10)⟩ 1 true).srim_price
        = some 15 ∧
    (compute_srim ⟨"X", some 1000, some 150, some 100, some 12, some (1/10)⟩ 1 true).gap_pct
        = some 25 := by
  obtain ⟨h1, h2, h3, h4, h5⟩ :=
    compute_srim_formula_C1 "X" 1000 150 100 (some 12) (1/10) 1 true
      (by norm_num) (by norm_num) (by norm_num)
  refine ⟨?_, ?_, ?_, ?_, ?_⟩
  · rw [h1]; norm_num
  · rw [h2]; norm_num
  · rw [h3]; norm_num
  · rw [h4]; norm_num [clampR]
  · rw [h5 12 rfl (by norm_num)]; norm_num [clampR]

/-- C2: the preconditions are checked in strict order — missing input,
equity ≤ 0, shares ≤ 0, rate ≤ 0 — and the first failure short-circuits
with every derived output null and a flag set containing exactly the one
flag naming that failure. -/
theorem compute_srim_short_circuit_C2 (x : SrimInput) (p : ℚ) (c : Bool) :
    (x.equity_parent = none ∨ x.net_income_parent = none ∨ x.shares_out = none ∨
        x.discount_rate = none →
      compute_srim x p c =
        ⟨none, none, none, none, none, [("FLAG_MISSING_INPUT", .bool true)]⟩) ∧
    (∀ e, x.equity_parent = some e → x.net_income_parent ≠ none →
        x.shares_out ≠ none → x.discount_rate ≠ none → e ≤ 0 →
      compute_srim x p c =
        ⟨none, none, none, none, none, [("FLAG_EQUITY_NON_POSITIVE", .bool true)]⟩) ∧
    (∀ e sh, x.equity_parent = some e → x.net_income_parent ≠ none →
        x.shares_out = some sh → x.discount_rate ≠ none → 0 < e → sh ≤ 0 →
      compute_srim x p c =
        ⟨none, none, none, none, none, [("FLAG_SHARES_NON_POSITIVE", .bool true)]⟩) ∧
    (∀ e sh r, x.equity_parent = some e → x.net_income_parent ≠ none →
        x.shares_out = some sh → x.discount_rate = some r → 0 < e → 0 < sh → r ≤ 0 →
      compute_srim x p c =
        ⟨none, none, none, none, none,
          [("FLAG_DISCOUNT_RATE_NON_POSITIVE", .bool true)]⟩) := by
  obtain ⟨tk, oe, oni, osh, omp, orr⟩ := x
  refine ⟨?_, ?_, ?_, ?_⟩
  · rintro (h | h | h | h) <;>
      (cases oe <;> cases oni <;> cases osh <;> cases orr <;> simp_all [compute_srim])
  · intro e he hni hsh hrr hle
    subst he
    cases oni <;> cases osh <;> cases orr <;> simp_all [compute_srim]
  · intro e sh he hni hsh hrr hpos hle
    subst he; subst hsh
    cases oni <;> cases orr <;>
      simp_all [compute_srim, not_le.mpr hpos]
  · intro e sh r he hni hsh hrr hpos hshpos hle
    subst he; subst hsh; subst hrr
    cases oni <;>
      simp_all [compute_srim, not_le.mpr hpos, not_le.mpr hshpos]

/-- C2 witness: a missing net income short-circuits to the missing-input
flag, and equity 0 short-circuits to the non-positive-equity flag. -/
theorem compute_srim_short_circuit_C2_witness :
    compute_srim ⟨"X", some 5, none, some 2, some 3, some (1/10)⟩ 1 true =
      ⟨none, none, none, none, none, [("FLAG_MISSING_INPUT", .bool true)]⟩ ∧
    compute_srim ⟨"X", some 0, some 1, some 2, some 3, some (1/10)⟩ 1 true =
      ⟨none, none, none, none, none, [("FLAG_EQUITY_NON_POSITIVE", .bool true)]⟩ := by
  constructor
  · exact (compute_srim_short_circuit_C2
      ⟨"X", some 5, none, some 2, some 3, some (1/10)⟩ 1 true).1
      (Or.inr (Or.inl rfl))
  · exact (compute_srim_short_circuit_C2
      ⟨"X", some 0, some 1, some 2, some 3, some (1/10)⟩ 1 true).2.1
      0 rfl (by simp) (by simp) (by simp) le_rfl

/-- C3: with clamping enabled and a negative residual-income total, the
residual used for present value is exactly 0 — the recorded
`pv_residual_total` is 0 and the fair price collapses to equity / shares —
and the clamped-residual flag is recorded. -/
theorem compute_srim_clamp_C3 (tk : String) (e ni sh : ℚ) (mp : Option ℚ)
    (r p : ℚ) (he : 0 < e) (hs : 0 < sh) (hr : 0 < r)
    (hneg : (ni / e - r) * e < 0) :
    (compute_srim ⟨tk, some e, some ni, some sh, mp, some r⟩ p true).srim_price
        = some (e / sh) ∧
    ("FLAG_NEGATIVE_RESIDUAL_CLAMPED", FlagVal.bool true)
        ∈ (compute_srim ⟨tk, some e, some ni, some sh, mp, some r⟩ p true).flags ∧
    ("pv_residual_total", FlagVal.num 0)
        ∈ (compute_srim ⟨tk, some e, some ni, some sh, mp, some r⟩ p true).flags := by
  simp only [compute_srim, if_neg (not_le.mpr he), if_neg (not_le.mpr hs),
    if_neg (not_le.mpr hr), true_and, if_pos hneg, zero_div, zero_mul, add_zero]
  refine ⟨?_, ?_⟩ <;>
    (cases mp with
     | none => split_ifs <;> simp
     | some m => by_cases hm : 0 < m <;> split_ifs <;> simp [hm])

/-- C3 witness: equity 100, net income −50, shares 10, rate 1/10 has
residual (−0.6)·100 < 0; the fair price is 100/10 = 10 with the clamp flag
and a zero recorded present value. -/
theorem compute_srim_clamp_C3_witness :
    (compute_srim ⟨"X", some 100, some (-50), some 10, some 12, some (1/10)⟩ 1 true).srim_price
        = some 10 ∧
    ("FLAG_NEGATIVE_RESIDUAL_CLAMPED", FlagVal.bool true)
        ∈ (compute_srim ⟨"X", some 100, some (-50), some 10, some 12, some (1/10)⟩ 1 true).flags ∧
    ("pv_residual_total", FlagVal.num 0)
        ∈ (compute_srim ⟨"X", some 100, some (-50), some 10, some 12, some (1/10)⟩ 1 true).flags := by
  obtain ⟨h1, h2, h3⟩ :=
    compute_srim_clamp_C3 "X" 100 (-50) 10 (some 12) (1/10) 1
      (by norm_num) (by norm_num) (by norm_num) (by norm_num)
  exact ⟨by rw [h1]; norm_num, h2, h3⟩

/-- C5 counterexample: for the input equity 1, net income −1, shares 0
(with rate 1/10), roe = −1 < 0, yet the computation short-circuits on the
shares precondition and the advisory flag `FLAG_ROE_NEGATIVE` is *not*
evaluated: the flag set is exactly the blocking shares flag.  So the
advisory flags are not evaluated independently of the precondition
short-circuits. -/
theorem compute_srim_advisory_C5_counterexample :
    ((-1 : ℚ) / 1 < 0) ∧
    (compute_srim ⟨"X", some 1, some (-1), some 0, some 10, some (1/10)⟩ 1 true).flags
        = [("FLAG_SHARES_NON_POSITIVE", FlagVal.bool true)] ∧
    "FLAG_ROE_NEGATIVE" ∉
      flagKeys (compute_srim ⟨"X", some 1, some (-1), some 0, some 10, some (1/10)⟩ 1 true).flags := by
  refine ⟨by norm_num, ?_, ?_⟩ <;> decide

/-- C5 (amended): for every input that passes all four preconditions, the
two advisory flags are evaluated independently of each other —
`FLAG_ROE_NEGATIVE` is present iff roe < 0 and `FLAG_ROE_BELOW_R` is
present iff roe < rate — and they are informational only: the fair price
is non-null regardless. -/
theorem compute_srim_advisory_C5 (tk : String) (e ni sh : ℚ) (mp : Option ℚ)
    (r p : ℚ) (c : Bool) (he : 0 < e) (hs : 0 < sh) (hr : 0 < r) :
    (compute_srim ⟨tk, some e, some ni, some sh, mp, some r⟩ p c).srim_price ≠ none ∧
    ("FLAG_ROE_NEGATIVE" ∈
        flagKeys (compute_srim ⟨tk, some e, some ni, some sh, mp, some r⟩ p c).flags
      ↔ ni / e < 0) ∧
    ("FLAG_ROE_BELOW_R" ∈
        flagKeys (compute_srim ⟨tk, some e, some ni, some sh, mp, some r⟩ p c).flags
      ↔ ni / e - r < 0) := by
  simp only [compute_srim, if_neg (not_le.mpr he), if_neg (not_le.mpr hs),
    if_neg (not_le.mpr hr)]
  refine ⟨by simp, ?_, ?_⟩ <;>
    (cases mp with
     | none => split_ifs <;> simp_all [flagKeys]
     | some m =>
         rcases lt_or_le 0 m with hm | hm
         · simp only [if_pos hm]
           split_ifs <;> simp_all [flagKeys]
         · simp only [if_neg (not_lt.mpr hm)]
           split_ifs <;> simp_all [flagKeys])

/-- C5 witness: equity 100, net income −50, shares 10, rate 1/10 yields
both advisory flags together with the non-null fair price 10. -/
theorem compute_srim_advisory_C5_witness :
    "FLAG_ROE_NEGATIVE" ∈
      flagKeys (compute_srim ⟨"X", some 100, some (-50), some 10, some 12, some (1/10)⟩ 1 true).flags ∧
    "FLAG_ROE_BELOW_R" ∈
      flagKeys (compute_srim ⟨"X", some 100, some (-50), some 10, some 12, some (1/10)⟩ 1 true).flags ∧
    (compute_srim ⟨"X", some 100, some (-50), some 10, some 12, some (1/10)⟩ 1 true).srim_price
      ≠ none := by
  obtain ⟨h1, h2, h3⟩ :=
    compute_srim_advisory_C5 "X" 100 (-50) 10 (some 12) (1/10) 1 true
      (by norm_num) (by norm_num) (by norm_num)
  exact ⟨h2.mpr (by norm_num), h3.mpr (by norm_num), h1⟩

/-- C6: `classify_flags` evaluates its rules in strict priority — non-dict
inputs give WARN with the invalid-format reason, then EXCLUDE-set keys win
over WARN-set keys (reasons being the intersection with the matching set),
and OK with no reasons otherwise; in particular a flag set with both an
EXCLUDE key and a WARN key is always EXCLUDE. -/
theorem classify_flags_priority_C6 :
    classify_flags .notDict = ("WARN", ["FLAG_INVALID_FLAGS_FORMAT"]) ∧
    (∀ f : Flags, (∃ k, k ∈ EXCLUDE_FLAG_KEYS ∧ k ∈ flagKeys f) →
      (classify_flags (.dict f)).1 = "EXCLUDE" ∧
      ∀ k, k ∈ (classify_flags (.dict f)).2 ↔ k ∈ EXCLUDE_FLAG_KEYS ∧ k ∈ flagKeys f) ∧
    (∀ f : Flags, (∀ k, k ∈ EXCLUDE_FLAG_KEYS → k ∉ flagKeys f) →
      (∃ k, k ∈ WARN_FLAG_KEYS ∧ k ∈ flagKeys f) →
      (classify_flags (.dict f)).1 = "WARN" ∧
      ∀ k, k ∈ (classify_flags (.dict f)).2 ↔ k ∈ WARN_FLAG_KEYS ∧ k ∈ flagKeys f) ∧
    (∀ f : Flags, (∀ k, k ∈ EXCLUDE_FLAG_KEYS → k ∉ flagKeys f) →
      (∀ k, k ∈ WARN_FLAG_KEYS → k ∉ flagKeys f) →
      classify_flags (.dict f) = ("OK", [])) := by
  refine ⟨rfl, ?_, ?_, ?_⟩
  · rintro f ⟨k0, hk0, hk0f⟩
    have hne : EXCLUDE_FLAG_KEYS.filter (fun k => decide (k ∈ flagKeys f)) ≠ [] := by
      intro hnil
      have : k0 ∈ EXCLUDE_FLAG_KEYS.filter (fun k => decide (k ∈ flagKeys f)) :=
        List.mem_filter.mpr ⟨hk0, by simpa using hk0f⟩
      simp [hnil] at this
    constructor
    · simp only [classify_flags]
      rw [if_pos hne]
    · intro k
      simp only [classify_flags]
      rw [if_pos hne]
      simp [List.mem_filter]
  · intro f hex ⟨k0, hk0, hk0f⟩
    have hexnil : EXCLUDE_FLAG_KEYS.filter (fun k => decide (k ∈ flagKeys f)) = [] := by
      refine List.filter_eq_nil_iff.mpr ?_
      intro k hk
      simpa using hex k hk
    have hwne : WARN_FLAG_KEYS.filter (fun k => decide (k ∈ flagKeys f)) ≠ [] := by
      intro hnil
      have : k0 ∈ WARN_FLAG_KEYS.filter (fun k => decide (k ∈ flagKeys f)) :=
        List.mem_filter.mpr ⟨hk0, by simpa using hk0f⟩
      simp [hnil] at this
    constructor
    · simp only [classify_flags]
      rw [hexnil, if_neg (fun h => h rfl), if_pos hwne]
    · intro k
      simp only [classify_flags]
      rw [hexnil, if_neg (fun h => h rfl), if_pos hwne]
      simp [List.mem_filter]
  · intro f hex hwn
    have hexnil : EXCLUDE_FLAG_KEYS.filter (fun k => decide (k ∈ flagKeys f)) = [] := by
      refine List.filter_eq_nil_iff.mpr ?_
      intro k hk
      simpa using hex k hk
    have hwnnil : WARN_FLAG_KEYS.filter (fun k => decide (k ∈ flagKeys f)) = [] := by
      refine List.filter_eq_nil_iff.mpr ?_
      intro k hk
      simpa using hwn k hk
    simp only [classify_flags]
    rw [hexnil, if_neg (fun h => h rfl), hwnnil, if_neg (fun h => h rfl)]

/-- C6 witness: a flag set with both the EXCLUDE-set key
`FLAG_MISSING_EQUITY` and the WARN-set key `FLAG_ROE_NEGATIVE` classifies
as EXCLUDE with reasons exactly the EXCLUDE-set intersection. -/
theorem classify_flags_priority_C6_witness :
    (classify_flags (.dict
        [("FLAG_MISSING_EQUITY", .bool true), ("FLAG_ROE_NEGATIVE", .bool true)])).1
      = "EXCLUDE" ∧
    ("FLAG_MISSING_EQUITY" ∈ (classify_flags (.dict
        [("FLAG_MISSING_EQUITY", .bool true), ("FLAG_ROE_NEGATIVE", .bool true)])).2
      ↔ ("FLAG_MISSING_EQUITY" ∈ EXCLUDE_FLAG_KEYS ∧
         "FLAG_MISSING_EQUITY" ∈ flagKeys
           [("FLAG_MISSING_EQUITY", .bool true), ("FLAG_ROE_NEGATIVE", .bool true)])) := by
  obtain ⟨h1, h2⟩ := classify_flags_priority_C6.2.1
    [("FLAG_MISSING_EQUITY", .bool true), ("FLAG_ROE_NEGATIVE", .bool true)]
    ⟨"FLAG_MISSING_EQUITY", by decide, by decide⟩
  exact ⟨h1, h2 "FLAG_MISSING_EQUITY"⟩

/-- C10: the verdict and reasons of `classify_flags` depend only on which
keys are present, never on the stored values: two flag dicts with the same
key set classify identically. -/
theorem classify_flags_keys_only_C10 (f1 f2 : Flags)
    (h : ∀ k, k ∈ flagKeys f1 ↔ k ∈ flagKeys f2) :
    classify_flags (.dict f1) = classify_flags (.dict f2) := by
  have hfe : ∀ l : List String,
      l.filter (fun k => decide (k ∈ flagKeys f1))
        = l.filter (fun k => decide (k ∈ flagKeys f2)) := by
    intro l
    refine List.filter_congr ?_
    intro k _
    exact decide_eq_decide.mpr (h k)
  simp only [classify_flags, hfe]

/-- C10 witness: a key mapped to `False` still drives the verdict — the
dicts mapping `FLAG_MISSING_EQUITY` to `False` and to `True` classify the
same way (and that way is EXCLUDE). -/
theorem classify_flags_keys_only_C10_witness :
    classify_flags (.dict [("FLAG_MISSING_EQUITY", .bool false)])
        = classify_flags (.dict [("FLAG_MISSING_EQUITY", .bool true)]) ∧
    classify_flags (.dict [("FLAG_MISSING_EQUITY", .bool false)])
        = ("EXCLUDE", ["FLAG_MISSING_EQUITY"]) := by
  constructor
  · exact classify_flags_keys_only_C10
      [("FLAG_MISSING_EQUITY", .bool false)]
      [("FLAG_MISSING_EQUITY", .bool true)]
      (by intro k; simp [flagKeys])
  · decide

/-- C7: `sanitize_for_json` replaces every non-finite float with null,
leaves any value already free of non-finite floats unchanged, preserves
the keys of nested dicts (in order) and the length of nested lists, its
result is always free of non-finite floats, and it is idempotent. -/
theorem sanitize_for_json_C7 :
    (∀ f : PyFloat, isBadNumber f = true →
        sanitize_for_json (.jfloat f) = .jnull) ∧
    (∀ v : JVal, goodV v = true → sanitize_for_json v = v) ∧
    (∀ v : JVal, goodV (sanitize_for_json v) = true) ∧
    (∀ es : JEntries, entryKeys (sanitizeEntries es) = entryKeys es) ∧
    (∀ xs : JItems, itemsLength (sanitizeItems xs) = itemsLength xs) ∧
    (∀ v : JVal, sanitize_for_json (sanitize_for_json v) = sanitize_for_json v) := by
  refine ⟨?_, sanitizeV_id, sanitizeV_good, sanitizeE_keys, sanitizeI_len, ?_⟩
  · intro f hf
    simp [sanitize_for_json, hf]
  · intro v
    exact sanitizeV_id _ (sanitizeV_good v)

/-- C7 witness: a dict with a NaN-valued entry sanitizes to the same dict
with that entry nulled; the result is unchanged by a second sanitization
pass. -/
theorem sanitize_for_json_C7_witness :
    isBadNumber .nan = true ∧
    sanitize_for_json (.jfloat .nan) = .jnull ∧
    sanitize_for_json
        (.jdict (.cons "gap" (.jfloat .nan) (.cons "bps" (.jint 3) .nil)))
      = .jdict (.cons "gap" .jnull (.cons "bps" (.jint 3) .nil)) ∧
    sanitize_for_json
        (sanitize_for_json
          (.jdict (.cons "gap" (.jfloat .nan) (.cons "bps" (.jint 3) .nil))))
      = sanitize_for_json
          (.jdict (.cons "gap" (.jfloat .nan) (.cons "bps" (.jint 3) .nil))) := by
  refine ⟨rfl, sanitize_for_json_C7.1 .nan rfl, rfl, ?_⟩
  exact sanitize_for_json_C7.2.2.2.2.2
    (.jdict (.cons "gap" (.jfloat .nan) (.cons "bps" (.jint 3) .nil)))

lemma scanFirst_eq (fetch : Attempt → FetchRes) : ∀ l : List Attempt,
    scanFirst fetch l =
      (l.takeWhile (fun a => !succeedsAt fetch a)
          ++ (l.dropWhile (fun a => !succeedsAt fetch a)).take 1,
       (l.dropWhile (fun a => !succeedsAt fetch a)).head?)
  | [] => rfl
  | a :: rest => by
    cases h : succeedsAt fetch a with
    | true => simp [scanFirst, h, List.takeWhile_cons, List.dropWhile_cons]
    | false =>
        simp [scanFirst, h, List.takeWhile_cons, List.dropWhile_cons,
          scanFirst_eq fetch rest]

lemma scanFirst_append_some (fetch : Attempt → FetchRes) :
    ∀ (l1 : List Attempt), (scanFirst fetch l1).2.isSome = true →
      ∀ l2, scanFirst fetch (l1 ++ l2) = scanFirst fetch l1
  | [], h => by simp [scanFirst] at h
  | a :: rest, h => by
    intro l2
    cases hs : succeedsAt fetch a with
    | true => simp [scanFirst, hs]
    | false =>
        have h' : (scanFirst fetch rest).2.isSome = true := by
          simpa [scanFirst, hs] using h
        simp [scanFirst, hs, scanFirst_append_some fetch rest h' l2]

lemma scanFirst_append_none (fetch : Attempt → FetchRes) :
    ∀ (l1 : List Attempt), (scanFirst fetch l1).2 = none →
      ∀ l2, scanFirst fetch (l1 ++ l2) =
        ((scanFirst fetch l1).1 ++ (scanFirst fetch l2).1, (scanFirst fetch l2).2)
  | [], _ => by intro l2; simp [scanFirst]
  | a :: rest, h => by
    intro l2
    cases hs : succeedsAt fetch a with
    | true => simp [scanFirst, hs] at h
    | false =>
        have h' : (scanFirst fetch rest).2 = none := by
          simpa [scanFirst, hs] using h
        simp [scanFirst, hs, scanFirst_append_none fetch rest h' l2]

lemma tryYears_scan (fetch : Attempt → FetchRes) (rc : String) (basis : Basis)
    (ek tk : String) : ∀ (years : List ℤ) (st : SearchState),
    (tryYears fetch rc basis ek tk years st).1.attempts
        = st.attempts ++ (scanFirst fetch (years.map fun y => ⟨rc, y, basis⟩)).1 ∧
    Option.map (fun p => (⟨rc, p.1, basis⟩ : Attempt))
        (tryYears fetch rc basis ek tk years st).2
        = (scanFirst fetch (years.map fun y => ⟨rc, y, basis⟩)).2
  | [], st => by simp [tryYears, scanFirst]
  | y :: rest, st => by
    cases hf : fetch ⟨rc, y, basis⟩ with
    | ok rows =>
        cases hrows : rows.isEmpty with
        | true =>
            have hnil : rows = [] := List.isEmpty_iff.mp hrows
            have ih := tryYears_scan fetch rc basis ek tk rest
              { st with attempts := st.attempts ++ [⟨rc, y, basis⟩] }
            simp only [tryYears, hf, hnil, scanFirst, succeedsAt, List.map_cons,
              ne_eq, not_true_eq_false, if_false, List.isEmpty_nil, Bool.not_true]
            refine ⟨?_, ?_⟩
            · rw [ih.1]
              simp [List.append_assoc]
            · rw [ih.2]
              simp
        | false =>
            have hnnil : rows ≠ [] := by
              intro hn; rw [hn] at hrows; simp at hrows
            simp [tryYears, hf, hnnil, scanFirst, succeedsAt, hrows]
    | err m =>
        have ih := tryYears_scan fetch rc basis ek tk rest
          { attempts := st.attempts ++ [⟨rc, y, basis⟩],
            flags := dictSet (dictSet st.flags ek (.str m)) tk (.yearReprt y rc) }
        simp only [tryYears, hf, scanFirst, succeedsAt, List.map_cons, Bool.not_false]
        refine ⟨?_, ?_⟩
        · rw [ih.1]
          simp [List.append_assoc]
        · rw [ih.2]
          simp

lemma searchFs_scan (fetch : Attempt → FetchRes) (years : List ℤ) :
    ∀ (rcs : List String) (st : SearchState),
    (searchFs fetch years st rcs).1.attempts
        = st.attempts ++ (scanFirst fetch (code_search_order rcs years)).1 ∧
    foundAttempt (searchFs fetch years st rcs).2
        = (scanFirst fetch (code_search_order rcs years)).2
  | [], st => by simp [searchFs, code_search_order, scanFirst, foundAttempt]
  | rc :: rest, st => by
    have horder : code_search_order (rc :: rest) years
        = ((years.map fun y => (⟨rc, y, .CFS⟩ : Attempt))
            ++ (years.map fun y => (⟨rc, y, .OFS⟩ : Attempt)))
          ++ code_search_order rest years := by
      simp [code_search_order]
    have hcfs := tryYears_scan fetch rc .CFS "LAST_ERR_CFS" "LAST_TRY_CFS" years st
    rcases htry : tryYears fetch rc .CFS "LAST_ERR_CFS" "LAST_TRY_CFS" years st with
      ⟨st1, res1⟩
    rw [htry] at hcfs
    cases res1 with
    | some p =>
        have hsome : (scanFirst fetch (years.map fun y =>
            (⟨rc, y, .CFS⟩ : Attempt))).2 = some ⟨rc, p.1, .CFS⟩ := by
          rw [← hcfs.2]; rfl
        have hs1 : (scanFirst fetch (years.map fun y =>
            (⟨rc, y, .CFS⟩ : Attempt))).2.isSome = true := by rw [hsome]; rfl
        rw [horder, List.append_assoc,
          scanFirst_append_some fetch _ hs1 _]
        obtain ⟨y, rows⟩ := p
        simp only [searchFs, htry]
        exact ⟨hcfs.1, by rw [foundAttempt, hsome]⟩
    | none =>
        have hnone1 : (scanFirst fetch (years.map fun y =>
            (⟨rc, y, .CFS⟩ : Attempt))).2 = none := by
          rw [← hcfs.2]; rfl
        have hofs := tryYears_scan fetch rc .OFS "LAST_ERR_OFS" "LAST_TRY_OFS" years st1
        rcases htry2 : tryYears fetch rc .OFS "LAST_ERR_OFS" "LAST_TRY_OFS" years st1 with
          ⟨st2, res2⟩
        rw [htry2] at hofs
        cases res2 with
        | some p =>
            have hsome2 : (scanFirst fetch (years.map fun y =>
                (⟨rc, y, .OFS⟩ : Attempt))).2 = some ⟨rc, p.1, .OFS⟩ := by
              rw [← hofs.2]; rfl
            have hs2 : (scanFirst fetch (years.map fun y =>
                (⟨rc, y, .OFS⟩ : Attempt))).2.isSome = true := by rw [hsome2]; rfl
            rw [horder, List.append_assoc,
              scanFirst_append_none fetch _ hnone1 _,
              scanFirst_append_some fetch _ hs2 _]
            obtain ⟨y, rows⟩ := p
            simp only [searchFs, htry, htry2]
            refine ⟨?_, by rw [foundAttempt, hsome2]⟩
            rw [hofs.1, hcfs.1, List.append_assoc]
        | none =>
            have hnone2 : (scanFirst fetch (years.map fun y =>
                (⟨rc, y, .OFS⟩ : Attempt))).2 = none := by
              rw [← hofs.2]; rfl
            have ih := searchFs_scan fetch years rest st2
            rw [horder, List.append_assoc,
              scanFirst_append_none fetch _ hnone1 _,
              scanFirst_append_none fetch _ hnone2 _]
            simp only [searchFs, htry, htry2]
            refine ⟨?_, ih.2⟩
            rw [ih.1, hofs.1, hcfs.1]
            simp [List.append_assoc]

/-- C4 counterexample: for the oracle `c4Fetch` (annual data exists at
(2023, consolidated) and (2024, standalone) only) and current year 2026,
the code's search finds (11011, 2023, CFS) — it tries all candidate years
on the consolidated basis before any standalone attempt — whereas the
pairwise order the claim describes (consolidated then standalone per
(report type, year) pair) would find (11011, 2024, OFS) after two
attempts; neither the found combination nor the attempt trace agrees. -/
theorem fallback_order_C4_counterexample :
    foundAttempt (searchFs c4Fetch (candidate_years 2026) ⟨[], []⟩ reprt_codes).2
        = some ⟨"11011", 2023, .CFS⟩ ∧
    (scanFirst c4Fetch (spec_pair_order reprt_codes (candidate_years 2026))).2
        = some ⟨"11011", 2024, .OFS⟩ ∧
    foundAttempt (searchFs c4Fetch (candidate_years 2026) ⟨[], []⟩ reprt_codes).2
        ≠ (scanFirst c4Fetch (spec_pair_order reprt_codes (candidate_years 2026))).2 ∧
    (searchFs c4Fetch (candidate_years 2026) ⟨[], []⟩ reprt_codes).1.attempts
        ≠ (scanFirst c4Fetch (spec_pair_order reprt_codes (candidate_years 2026))).1 := by
  refine ⟨by decide, by decide, by decide, by decide⟩

/-- C4 (amended): the fallback search attempts, for each report type in
priority order, every candidate year on the consolidated basis and then —
only if that whole consolidated pass yielded no rows — every candidate
year on the standalone basis; the attempt trace is exactly the failing
prefix of that order followed by the first succeeding combination, at
which the search terminates, and the reported combination is that first
success (if any). -/
theorem fallback_order_C4 (fetch : Attempt → FetchRes) (cy : ℤ) :
    (searchFs fetch (candidate_years cy) ⟨[], []⟩ reprt_codes).1.attempts
        = ((code_search_order reprt_codes (candidate_years cy)).takeWhile
              (fun a => !succeedsAt fetch a))
          ++ ((code_search_order reprt_codes (candidate_years cy)).dropWhile
              (fun a => !succeedsAt fetch a)).take 1 ∧
    foundAttempt (searchFs fetch (candidate_years cy) ⟨[], []⟩ reprt_codes).2
        = ((code_search_order reprt_codes (candidate_years cy)).dropWhile
              (fun a => !succeedsAt fetch a)).head? := by
  obtain ⟨h1, h2⟩ := searchFs_scan fetch (candidate_years cy) reprt_codes ⟨[], []⟩
  rw [scanFirst_eq] at h1 h2
  exact ⟨by simpa using h1, h2⟩

lemma mem_flagKeys_dictSet (k : String) (v : FlagVal) :
    ∀ (f : Flags) (x : String), x ∈ flagKeys (dictSet f k v) →
      x ∈ flagKeys f ∨ x = k
  | [], x => by simp [dictSet, flagKeys]
  | (k0, v0) :: rest, x => by
    by_cases h : k0 = k
    · simp only [dictSet, if_pos h, flagKeys, List.map_cons, List.mem_cons]
      intro hx
      rcases hx with h0 | h1
      · exact Or.inl (Or.inl h0)
      · exact Or.inl (Or.inr h1)
    · simp only [dictSet, if_neg h, flagKeys, List.map_cons, List.mem_cons]
      intro hx
      rcases hx with h0 | h1
      · exact Or.inl (Or.inl h0)
      · rcases mem_flagKeys_dictSet k v rest x h1 with h2 | h3
        · exact Or.inl (Or.inr h2)
        · exact Or.inr h3

lemma tryYears_flag_keys (fetch : Attempt → FetchRes) (rc : String) (basis : Basis)
    (ek tk : String) : ∀ (years : List ℤ) (st : SearchState) (x : String),
    x ∈ flagKeys (tryYears fetch rc basis ek tk years st).1.flags →
    x ∈ flagKeys st.flags ∨ x = ek ∨ x = tk
  | [], st, x => by simp [tryYears]; tauto
  | y :: rest, st, x => by
    intro hx
    cases hf : fetch ⟨rc, y, basis⟩ with
    | ok rows =>
        by_cases hrows : rows = []
        · rw [tryYears] at hx
          simp only [hf, hrows, ne_eq, not_true_eq_false, if_false] at hx
          exact tryYears_flag_keys fetch rc basis ek tk rest
            ⟨st.attempts ++ [⟨rc, y, basis⟩], st.flags⟩ x hx
        · rw [tryYears] at hx
          simp only [hf, hrows, ne_eq, not_false_eq_true, if_true] at hx
          exact Or.inl hx
    | err m =>
        rw [tryYears] at hx
        simp only [hf] at hx
        rcases tryYears_flag_keys fetch rc basis ek tk rest _ x hx with h1 | h2
        · rcases mem_flagKeys_dictSet tk (.yearReprt y rc) _ x h1 with h3 | h4
          · rcases mem_flagKeys_dictSet ek (.str m) _ x h3 with h5 | h6
            · exact Or.inl h5
            · exact Or.inr (Or.inl h6)
          · exact Or.inr (Or.inr h4)
        · exact Or.inr h2

lemma searchFs_flag_keys (fetch : Attempt → FetchRes) (years : List ℤ) :
    ∀ (rcs : List String) (st : SearchState) (x : String),
    x ∈ flagKeys (searchFs fetch years st rcs).1.flags →
    x ∈ flagKeys st.flags ∨
      x ∈ ["LAST_ERR_CFS", "LAST_TRY_CFS", "LAST_ERR_OFS", "LAST_TRY_OFS",
           "is_consolidated", "report_code_used"]
  | [], st, x => by simp [searchFs]; tauto
  | rc :: rest, st, x => by
    intro hx
    rcases htry : tryYears fetch rc .CFS "LAST_ERR_CFS" "LAST_TRY_CFS" years st with
      ⟨st1, res1⟩
    have hst1 : ∀ z, z ∈ flagKeys st1.flags → z ∈ flagKeys st.flags ∨
        z = "LAST_ERR_CFS" ∨ z = "LAST_TRY_CFS" := by
      intro z hz
      have := tryYears_flag_keys fetch rc .CFS "LAST_ERR_CFS" "LAST_TRY_CFS" years st z
      rw [htry] at this
      exact this hz
    cases res1 with
    | some p =>
        obtain ⟨y, rows⟩ := p
        rw [searchFs] at hx
        simp only [htry] at hx
        rcases mem_flagKeys_dictSet "report_code_used" (.str rc) _ x hx with h1 | h2
        · rcases mem_flagKeys_dictSet "is_consolidated" (.bool true) _ x h1 with h3 | h4
          · rcases hst1 x h3 with h5 | h6 | h7
            · exact Or.inl h5
            · subst h6; simp
            · subst h7; simp
          · subst h4; simp
        · subst h2; simp
    | none =>
        rcases htry2 : tryYears fetch rc .OFS "LAST_ERR_OFS" "LAST_TRY_OFS" years st1 with
          ⟨st2, res2⟩
        have hst2 : ∀ z, z ∈ flagKeys st2.flags → z ∈ flagKeys st1.flags ∨
            z = "LAST_ERR_OFS" ∨ z = "LAST_TRY_OFS" := by
          intro z hz
          have := tryYears_flag_keys fetch rc .OFS "LAST_ERR_OFS" "LAST_TRY_OFS" years st1 z
          rw [htry2] at this
          exact this hz
        have hst2' : ∀ z, z ∈ flagKeys st2.flags →
            z ∈ flagKeys st.flags ∨
            z ∈ ["LAST_ERR_CFS", "LAST_TRY_CFS", "LAST_ERR_OFS", "LAST_TRY_OFS",
                 "is_consolidated", "report_code_used"] := by
          intro z hz
          rcases hst2 z hz with h1 | h2 | h3
          · rcases hst1 z h1 with h4 | h5 | h6
            · exact Or.inl h4
            · subst h5; simp
            · subst h6; simp
          · subst h2; simp
          · subst h3; simp
        cases res2 with
        | some p =>
            obtain ⟨y, rows⟩ := p
            rw [searchFs] at hx
            simp only [htry, htry2] at hx
            rcases mem_flagKeys_dictSet "report_code_used" (.str rc) _ x hx with h1 | h2
            · rcases mem_flagKeys_dictSet "is_consolidated" (.bool false) _ x h1 with
                h3 | h4
              · exact hst2' x h3
              · subst h4; simp
            · subst h2; simp
        | none =>
            rw [searchFs] at hx
            simp only [htry, htry2] at hx
            rcases searchFs_flag_keys fetch years rest st2 x hx with h1 | h2
            · exact hst2' x h1
            · exact Or.inr h2

/-- C9: each of the three fundamentals-resolution failure classes — bad
ticker, no corp-code mapping, no (report type, year, basis) combination
with data — produces a row with all numeric fields (`fs_year`,
`equity_parent`, `net_income_parent`) null and exactly the one terminal
flag naming that class (the `name` entry is the display name, not a flag);
resolution itself is a total function, so it never raises to the caller. -/
theorem resolveTicker_failure_C9
    (pick : List (String × Option ℚ) → List String → Option ℚ)
    (corp_lookup : String → Option String)
    (fetch : String → Attempt → FetchRes)
    (cy : ℤ) (name : Option String) (raw : String) :
    (isValidTicker (zfill6 raw) = false →
      (resolveTicker pick corp_lookup fetch cy name raw).fs_year = none ∧
      (resolveTicker pick corp_lookup fetch cy name raw).equity_parent = none ∧
      (resolveTicker pick corp_lookup fetch cy name raw).net_income_parent = none ∧
      flagKeys (resolveTicker pick corp_lookup fetch cy name raw).data_quality
        = ["FLAG_BAD_TICKER", "name"]) ∧
    (isValidTicker (zfill6 raw) = true → corp_lookup (zfill6 raw) = none →
      (resolveTicker pick corp_lookup fetch cy name raw).fs_year = none ∧
      (resolveTicker pick corp_lookup fetch cy name raw).equity_parent = none ∧
      (resolveTicker pick corp_lookup fetch cy name raw).net_income_parent = none ∧
      flagKeys (resolveTicker pick corp_lookup fetch cy name raw).data_quality
        = ["FLAG_NO_CORP_CODE", "name"]) ∧
    (isValidTicker (zfill6 raw) = true →
      ∀ cc, corp_lookup (zfill6 raw) = some cc →
      (searchFs (fetch cc) (candidate_years cy) ⟨[], []⟩ reprt_codes).2 = none →
      (resolveTicker pick corp_lookup fetch cy name raw).fs_year = none ∧
      (resolveTicker pick corp_lookup fetch cy name raw).equity_parent = none ∧
      (resolveTicker pick corp_lookup fetch cy name raw).net_income_parent = none ∧
      "FLAG_NO_FS" ∈
        flagKeys (resolveTicker pick corp_lookup fetch cy name raw).data_quality ∧
      "FLAG_BAD_TICKER" ∉
        flagKeys (resolveTicker pick corp_lookup fetch cy name raw).data_quality ∧
      "FLAG_NO_CORP_CODE" ∉
        flagKeys (resolveTicker pick corp_lookup fetch cy name raw).data_quality) := by
  refine ⟨?_, ?_, ?_⟩
  · intro hbad
    simp [resolveTicker, hbad, flagKeys]
  · intro hok hnone
    simp [resolveTicker, hok, hnone, flagKeys]
  · intro hok cc hcc hsearch
    rcases hres : searchFs (fetch cc) (candidate_years cy) ⟨[], []⟩ reprt_codes with
      ⟨st, res⟩
    have hresnone : res = none := by
      have := hsearch
      rw [hres] at this
      exact this
    subst hresnone
    have hkeys : ∀ z, z ∈ flagKeys st.flags →
        z ∈ ["LAST_ERR_CFS", "LAST_TRY_CFS", "LAST_ERR_OFS", "LAST_TRY_OFS",
             "is_consolidated", "report_code_used"] := by
      intro z hz
      have hmem : z ∈ flagKeys
          (searchFs (fetch cc) (candidate_years cy) ⟨[], []⟩ reprt_codes).1.flags := by
        rw [hres]
        exact hz
      rcases searchFs_flag_keys (fetch cc) (candidate_years cy) reprt_codes
          ⟨[], []⟩ z hmem with h1 | h2
      · simp [flagKeys] at h1
      · exact h2
    simp only [resolveTicker, hok, hcc, hres, Bool.not_true, Bool.false_eq_true,
      if_false, not_true_eq_false, ite_false]
    refine ⟨trivial, trivial, trivial, by simp [flagKeys], ?_, ?_⟩
    · intro hmem
      rw [flagKeys, List.map_append, List.map_cons] at hmem
      rcases List.mem_append.mp hmem with h | h
      · rcases List.mem_cons.mp h with h1 | h1
        · exact absurd h1 (by decide)
        · exact absurd (hkeys _ h1) (by decide)
      · simp at h
    · intro hmem
      rw [flagKeys, List.map_append, List.map_cons] at hmem
      rcases List.mem_append.mp hmem with h | h
      · rcases List.mem_cons.mp h with h1 | h1
        · exact absurd h1 (by decide)
        · exact absurd (hkeys _ h1) (by decide)
      · simp at h

/-- C9 witness: a 5-character alphanumeric identifier zero-pads to
"0ab12", fails the well-formedness check, and resolves to the bad-ticker
row; a well-formed ticker with no corp-code mapping resolves to the
no-corp-code row. -/
theorem resolveTicker_failure_C9_witness :
    ((resolveTicker (fun _ _ => none) (fun _ => none) (fun _ _ => .ok [])
        2026 none "ab12").equity_parent = none ∧
      flagKeys (resolveTicker (fun _ _ => none) (fun _ => none) (fun _ _ => .ok [])
        2026 none "ab12").data_quality = ["FLAG_BAD_TICKER", "name"]) ∧
    ((resolveTicker (fun _ _ => none) (fun _ => none) (fun _ _ => .ok [])
        2026 none "005930").equity_parent = none ∧
      flagKeys (resolveTicker (fun _ _ => none) (fun _ => none) (fun _ _ => .ok [])
        2026 none "005930").data_quality = ["FLAG_NO_CORP_CODE", "name"]) := by
  constructor
  · obtain ⟨-, h2, -, h4⟩ :=
      (resolveTicker_failure_C9 (fun _ _ => none) (fun _ => none) (fun _ _ => .ok [])
        2026 none "ab12").1 (by decide)
    exact ⟨h2, h4⟩
  · obtain ⟨-, h2, -, h4⟩ :=
      (resolveTicker_failure_C9 (fun _ _ => none) (fun _ => none) (fun _ _ => .ok [])
        2026 none "005930").2.1 (by decide) rfl
    exact ⟨h2, h4⟩

lemma tblGet_upsertOne_same : ∀ (tbl : Table) (k : String × String) (v : SRimVals)
    (t : ℕ), tblGet (upsertOne tbl k v t) k = some ⟨v, t⟩
  | [], k, v, t => by simp [upsertOne, tblGet]
  | (k0, r0) :: rest, k, v, t => by
    by_cases h : k0 = k
    · simp [upsertOne, tblGet, h]
    · simp [upsertOne, tblGet, h, tblGet_upsertOne_same rest k v t]

lemma tblGet_upsertOne_other : ∀ (tbl : Table) (k : String × String) (v : SRimVals)
    (t : ℕ) (k' : String × String), k' ≠ k →
    tblGet (upsertOne tbl k v t) k' = tblGet tbl k'
  | [], k, v, t, k', h => by
    simp [upsertOne, tblGet, Ne.symm h]
  | (k0, r0) :: rest, k, v, t, k', h => by
    by_cases h0 : k0 = k
    · subst h0
      simp [upsertOne, tblGet, Ne.symm h]
    · by_cases h1 : k0 = k'
      · subst h1
        simp [upsertOne, tblGet, h0]
      · simp [upsertOne, tblGet, h0, h1,
          tblGet_upsertOne_other rest k v t k' h]

lemma mem_keys_upsertOne : ∀ (tbl : Table) (k : String × String) (v : SRimVals)
    (t : ℕ) (x : String × String), x ∈ (upsertOne tbl k v t).map Prod.fst →
    x = k ∨ x ∈ tbl.map Prod.fst
  | [], k, v, t, x => by simp [upsertOne]
  | (k0, r0) :: rest, k, v, t, x => by
    by_cases h : k0 = k
    · subst h
      simp [upsertOne]
    · simp only [upsertOne, if_neg h, List.map_cons, List.mem_cons]
      intro hx
      rcases hx with h1 | h1
      · exact Or.inr (Or.inl h1)
      · rcases mem_keys_upsertOne rest k v t x h1 with h2 | h2
        · exact Or.inl h2
        · exact Or.inr (Or.inr h2)

lemma nodup_keys_upsertOne : ∀ (tbl : Table) (k : String × String) (v : SRimVals)
    (t : ℕ), (tbl.map Prod.fst).Nodup → ((upsertOne tbl k v t).map Prod.fst).Nodup
  | [], k, v, t, _ => by simp [upsertOne]
  | (k0, r0) :: rest, k, v, t, hnd => by
    have hnd' := hnd
    rw [List.map_cons, List.nodup_cons] at hnd'
    by_cases h : k0 = k
    · subst h
      simpa [upsertOne, List.nodup_cons] using hnd
    · rw [upsertOne, if_neg h, List.map_cons, List.nodup_cons]
      refine ⟨?_, nodup_keys_upsertOne rest k v t hnd'.2⟩
      intro hmem
      rcases mem_keys_upsertOne rest k v t k0 hmem with h1 | h1
      · exact h h1
      · exact hnd'.1 h1

lemma filter_key_eq_nil : ∀ (tbl : Table) (k : String × String),
    k ∉ tbl.map Prod.fst → tbl.filter (fun e => decide (e.1 = k)) = []
  | [], k, _ => rfl
  | (k0, r0) :: rest, k, h => by
    have h0 : k0 ≠ k := by
      intro hh
      exact h (by simp [hh])
    have hrest : k ∉ rest.map Prod.fst := by
      intro hh
      exact h (by simp [hh])
    simp [List.filter_cons, h0, filter_key_eq_nil rest k hrest]

lemma filter_upsertOne : ∀ (tbl : Table) (k : String × String) (v : SRimVals)
    (t : ℕ), (tbl.map Prod.fst).Nodup →
    (upsertOne tbl k v t).filter (fun e => decide (e.1 = k)) = [(k, ⟨v, t⟩)]
  | [], k, v, t, _ => by simp [upsertOne, List.filter_cons]
  | (k0, r0) :: rest, k, v, t, hnd => by
    have hnd' := hnd
    rw [List.map_cons, List.nodup_cons] at hnd'
    by_cases h : k0 = k
    · subst h
      have : k0 ∉ rest.map Prod.fst := hnd'.1
      simp [upsertOne, List.filter_cons, filter_key_eq_nil rest k0 this]
    · simp [upsertOne, List.filter_cons, h, filter_upsertOne rest k v t hnd'.2]

/-- C8: the result store is an idempotent pure replace keyed by
(snapshot id, ticker): writing a row and then writing the same key again
leaves exactly one row for that key holding the second write's values with
its `computed_at` refreshed to the (non-decreasing) later write time, and
every row with a different key is exactly as it was before both writes. -/
theorem upsert_replace_C8 (tbl : Table) (sid tk : String) (v1 v2 : SRimVals)
    (t1 t2 : ℕ) (hnd : (tbl.map Prod.fst).Nodup) (ht : t1 ≤ t2) :
    tblGet (upsert_srim_result tbl sid [⟨sid, tk, v1⟩] t1).1 (sid, tk)
        = some ⟨v1, t1⟩ ∧
    tblGet (upsert_srim_result (upsert_srim_result tbl sid [⟨sid, tk, v1⟩] t1).1
        sid [⟨sid, tk, v2⟩] t2).1 (sid, tk) = some ⟨v2, t2⟩ ∧
    ((upsert_srim_result (upsert_srim_result tbl sid [⟨sid, tk, v1⟩] t1).1
        sid [⟨sid, tk, v2⟩] t2).1).filter (fun e => decide (e.1 = (sid, tk)))
        = [((sid, tk), ⟨v2, t2⟩)] ∧
    (∀ s1 s2 : StoredRow,
      tblGet (upsert_srim_result tbl sid [⟨sid, tk, v1⟩] t1).1 (sid, tk) = some s1 →
      tblGet (upsert_srim_result (upsert_srim_result tbl sid [⟨sid, tk, v1⟩] t1).1
          sid [⟨sid, tk, v2⟩] t2).1 (sid, tk) = some s2 →
      s1.computed_at ≤ s2.computed_at) ∧
    (∀ k : String × String, k ≠ (sid, tk) →
      tblGet (upsert_srim_result (upsert_srim_result tbl sid [⟨sid, tk, v1⟩] t1).1
          sid [⟨sid, tk, v2⟩] t2).1 k = tblGet tbl k) := by
  have hu1 : (upsert_srim_result tbl sid [⟨sid, tk, v1⟩] t1).1
      = upsertOne tbl (sid, tk) v1 t1 := rfl
  have hu2 : (upsert_srim_result (upsert_srim_result tbl sid [⟨sid, tk, v1⟩] t1).1
      sid [⟨sid, tk, v2⟩] t2).1
      = upsertOne (upsertOne tbl (sid, tk) v1 t1) (sid, tk) v2 t2 := rfl
  rw [hu2, hu1]
  have hg1 := tblGet_upsertOne_same tbl (sid, tk) v1 t1
  have hg2 := tblGet_upsertOne_same (upsertOne tbl (sid, tk) v1 t1) (sid, tk) v2 t2
  refine ⟨hg1, hg2, ?_, ?_, ?_⟩
  · exact filter_upsertOne _ (sid, tk) v2 t2 (nodup_keys_upsertOne tbl (sid, tk) v1 t1 hnd)
  · intro s1 s2 h1 h2
    rw [hg1] at h1
    rw [hg2] at h2
    cases h1
    cases h2
    exact ht
  · intro k hk
    rw [tblGet_upsertOne_other _ (sid, tk) v2 t2 k hk,
      tblGet_upsertOne_other tbl (sid, tk) v1 t1 k hk]

/-- C8 witness: starting from a table with one unrelated row, writing key
("S1", "005930") twice leaves the later values with the later timestamp,
and the unrelated row untouched. -/
theorem upsert_replace_C8_witness :
    ((([(("S0", "000001"), (⟨⟨none, none, none, none, none, "{}"⟩, 0⟩ : StoredRow))] :
        Table).map Prod.fst).Nodup) ∧ (1 : ℕ) ≤ 2 ∧
    tblGet (upsert_srim_result (upsert_srim_result
        [(("S0", "000001"), (⟨⟨none, none, none, none, none, "{}"⟩, 0⟩ : StoredRow))]
        "S1" [⟨"S1", "005930", ⟨some 1, none, none, none, none, "a"⟩⟩] 1).1
        "S1" [⟨"S1", "005930", ⟨some 2, none, none, none, none, "b"⟩⟩] 2).1
        ("S1", "005930")
      = some ⟨⟨some 2, none, none, none, none, "b"⟩, 2⟩ ∧
    tblGet (upsert_srim_result (upsert_srim_result
        [(("S0", "000001"), (⟨⟨none, none, none, none, none, "{}"⟩, 0⟩ : StoredRow))]
        "S1" [⟨"S1", "005930", ⟨some 1, none, none, none, none, "a"⟩⟩] 1).1
        "S1" [⟨"S1", "005930", ⟨some 2, none, none, none, none, "b"⟩⟩] 2).1
        ("S0", "000001")
      = tblGet [(("S0", "000001"),
          (⟨⟨none, none, none, none, none, "{}"⟩, 0⟩ : StoredRow))] ("S0", "000001") := by
  obtain ⟨-, h2, -, -, h5⟩ := upsert_replace_C8
    [(("S0", "000001"), (⟨⟨none, none, none, none, none, "{}"⟩, 0⟩ : StoredRow))]
    "S1" "005930" ⟨some 1, none, none, none, none, "a"⟩
    ⟨some 2, none, none, none, none, "b"⟩ 1 2 (by decide) (by decide)
  exact ⟨by decide, by decide, h2, h5 ("S0", "000001") (by decide)⟩

end SRim
